import Mathlib

/-!
Shallow embedding of the resilience and degraded-streaming layer of the
Runsheet backend (`resilience/circuit_breaker.py`, `resilience/retry.py`,
`Agents/mainagent.py`), together with theorems settling the frozen claims
about that layer.

Modelling conventions:
* Timestamps and durations are integers (seconds); `datetime.utcnow()` is
  modelled by passing the current time `now : Int` explicitly.
* Python floats in the retry-delay computation are modelled as rationals
  (all values the claims touch are exactly representable).
* The effect of a fallible operation is modelled by an `Except` value
  (what the call would return or raise), and the mutation of shared
  breaker state by explicit state passing.
-/

namespace Runsheet

/-! ### Circuit breaker (`resilience/circuit_breaker.py`) -/

/-- The `CircuitState` enum: CLOSED / OPEN / HALF_OPEN. -/
inductive CircuitState where
  | closed
  | opened
  | halfOpen
deriving DecidableEq, Repr

/-- The `CircuitBreakerConfig` dataclass; `recovery_timeout` is a duration in
seconds (the Python default is `timedelta(seconds=30)`). -/
structure CircuitBreakerConfig where
  failure_threshold : Nat
  recovery_timeout : Int
  half_open_max_calls : Nat
deriving DecidableEq, Repr

/-- Python defaults: `failure_threshold=3`, `recovery_timeout=30s`,
`half_open_max_calls=1`. -/
def defaultCircuitConfig : CircuitBreakerConfig := ⟨3, 30, 1⟩

/-- The mutable fields of a `CircuitBreaker` instance plus its immutable
name and config. -/
structure CircuitBreaker where
  name : String
  config : CircuitBreakerConfig
  state : CircuitState
  failure_count : Nat
  last_failure_time : Option Int
  half_open_calls : Nat
deriving DecidableEq, Repr

/-- Model of `CircuitBreaker.__init__`: state CLOSED, failure count 0, no last
failure, no half-open calls. -/
def mkBreaker (name : String) (config : CircuitBreakerConfig) : CircuitBreaker :=
  ⟨name, config, .closed, 0, none, 0⟩

namespace CircuitBreaker

/-- Model of `CircuitBreaker._should_attempt_reset`: true when no failure has been
recorded, or when `now - last_failure_time >= recovery_timeout`. -/
def should_attempt_reset (b : CircuitBreaker) (now : Int) : Bool :=
  match b.last_failure_time with
  | none => true
  | some t => b.config.recovery_timeout ≤ now - t

/-- Model of `CircuitBreaker._get_time_until_retry`: remaining cooldown, `none`
once it is not positive. -/
def get_time_until_retry (b : CircuitBreaker) (now : Int) : Option Int :=
  match b.last_failure_time with
  | none => none
  | some t =>
    let remaining := b.config.recovery_timeout - (now - t)
    if remaining ≤ 0 then none else some remaining

/-- Model of `CircuitBreaker._on_success`: HALF_OPEN closes the circuit and resets
the counters; CLOSED resets the failure count. -/
def on_success (b : CircuitBreaker) : CircuitBreaker :=
  if b.state = .halfOpen then
    { b with state := .closed, failure_count := 0, half_open_calls := 0 }
  else if b.state = .closed then
    { b with failure_count := 0 }
  else b

/-- Model of `CircuitBreaker._on_failure`: stamps `last_failure_time = now`;
HALF_OPEN reopens the circuit; CLOSED increments the failure count and
opens the circuit once it reaches the threshold. -/
def on_failure (b : CircuitBreaker) (now : Int) : CircuitBreaker :=
  let b1 := { b with last_failure_time := some now }
  if b1.state = .halfOpen then
    { b1 with state := .opened, half_open_calls := 0 }
  else if b1.state = .closed then
    let fc := b1.failure_count + 1
    if b1.config.failure_threshold ≤ fc then
      { b1 with failure_count := fc, state := .opened }
    else
      { b1 with failure_count := fc }
  else b1

/-- Result of the admission phase of `CircuitBreaker.execute` (the part
run under the lock before the guarded operation): either the call is
admitted, or a `CircuitOpenException` carrying the remaining cooldown is
raised. -/
inductive AdmitResult where
  | admitted
  | rejected (time_until_retry : Option Int)
deriving DecidableEq, Repr

/-- Second admission check of `CircuitBreaker.execute`: in HALF_OPEN,
reject once `half_open_calls >= half_open_max_calls`, otherwise count the
trial call in. -/
def try_acquire_half_open (b : CircuitBreaker) (now : Int) : AdmitResult × CircuitBreaker :=
  if b.state = .halfOpen then
    if b.config.half_open_max_calls ≤ b.half_open_calls then
      (.rejected (b.get_time_until_retry now), b)
    else
      (.admitted, { b with half_open_calls := b.half_open_calls + 1 })
  else (.admitted, b)

/-- Admission phase of `CircuitBreaker.execute` (lines 264-285): an OPEN
circuit transitions to HALF_OPEN when the recovery timeout has elapsed and
is otherwise rejected; then the HALF_OPEN trial limit is enforced. -/
def try_acquire (b : CircuitBreaker) (now : Int) : AdmitResult × CircuitBreaker :=
  if b.state = .opened then
    if b.should_attempt_reset now then
      try_acquire_half_open { b with state := .halfOpen, half_open_calls := 0 } now
    else
      (.rejected (b.get_time_until_retry now), b)
  else try_acquire_half_open b now

/-- Outcome of one `CircuitBreaker.execute` call. -/
inductive ExecOutcome (α ε : Type) where
  | rejected (circuit_name : String) (time_until_retry : Option Int)
  | succeeded (a : α)
  | failed (e : ε)
deriving DecidableEq

/-- One `CircuitBreaker.execute` call: outcome, whether the wrapped
operation was invoked, and the breaker state afterwards. -/
structure ExecResult (α ε : Type) where
  outcome : ExecOutcome α ε
  invoked : Bool
  breaker : CircuitBreaker
deriving DecidableEq

/-- Model of `CircuitBreaker.execute`: admission under the lock, then the guarded
operation (modelled by the `Except` value `op`) outside the lock, then
`_on_success` / `_on_failure` under the lock. -/
def execute (b : CircuitBreaker) (now : Int) (op : Except ε α) : ExecResult α ε :=
  match try_acquire b now with
  | (.rejected tu, b1) => ⟨.rejected b1.name tu, false, b1⟩
  | (.admitted, b1) =>
    match op with
    | .ok a => ⟨.succeeded a, true, on_success b1⟩
    | .error e => ⟨.failed e, true, on_failure b1 now⟩

end CircuitBreaker

/-- A run of consecutive `execute` calls against an always-failing
operation, at the given sequence of call times. -/
def failRun (b : CircuitBreaker) (ts : List Int) : CircuitBreaker :=
  ts.foldl (fun b t => (CircuitBreaker.execute b t (Except.error () : Except Unit Unit)).breaker) b

example :
    (failRun (mkBreaker "gemini_api" defaultCircuitConfig) [0, 1]).failure_count = 2 := by
  decide

example :
    (failRun (mkBreaker "gemini_api" defaultCircuitConfig) [0, 1, 2]).state = .opened := by
  decide

example :
    (CircuitBreaker.execute (failRun (mkBreaker "gemini_api" defaultCircuitConfig) [0, 0, 0]) 10
      (Except.error () : Except Unit Unit)).invoked = false := by
  decide

/-! ### Retry engine (`resilience/retry.py`) -/

/-- The `RetryConfig` dataclass. Delays are rationals (Python floats; all the
values the claims touch are exactly representable). The
`retryable_exceptions` tuple is modelled by the `retryable` predicate that
the loop below takes separately. -/
structure RetryConfig where
  max_attempts : Nat
  initial_delay : ℚ
  exponential_base : ℚ
  max_delay : Option ℚ
deriving DecidableEq

/-- Python defaults: `max_attempts=3`, `initial_delay=1.0`,
`exponential_base=2.0`, `max_delay=None`. -/
def defaultRetryConfig : RetryConfig := ⟨3, 1, 2, none⟩

/-- Model of `calculate_delay`: `initial_delay * exponential_base ** attempt`,
capped by `max_delay` when one is given. -/
def calculate_delay (attempt : Nat) (initial_delay exponential_base : ℚ)
    (max_delay : Option ℚ) : ℚ :=
  let delay := initial_delay * exponential_base ^ attempt
  match max_delay with
  | some m => min delay m
  | none => delay

/-- Outcome of `retry_async` (and of the `@retry` decorator's wrapper,
which runs the identical loop): success, `RetryExhaustedException`
(carrying the attempt count and the last exception, `none` only on the
unreachable post-loop fallthrough), or a non-retryable exception
propagating uncaught. Each outcome records how many times the wrapped
operation was invoked and which backoff delays were slept. -/
inductive RetryOutcome (α ε : Type) where
  | ok (a : α) (invocations : Nat) (delays : List ℚ)
  | exhausted (attempts : Nat) (last : Option ε) (invocations : Nat) (delays : List ℚ)
  | raised (e : ε) (invocations : Nat) (delays : List ℚ)
deriving DecidableEq

/-- The `for attempt in range(max_attempts)` loop of `retry_async`:
`results i` is what the `i`-th invocation of the wrapped operation
returns or raises, `retryable` is membership in
`config.retryable_exceptions` (a non-retryable exception is not caught
and propagates). The fuel argument counts the remaining loop iterations;
`attempt` is the current index. -/
def retry_async_go (results : Nat → Except ε α) (retryable : ε → Bool)
    (cfg : RetryConfig) : Nat → Nat → List ℚ → RetryOutcome α ε
  | attempt, 0, delays => .exhausted cfg.max_attempts none attempt delays
  | attempt, rem + 1, delays =>
    match results attempt with
    | .ok a => .ok a (attempt + 1) delays
    | .error e =>
      if retryable e then
        if rem = 0 then
          .exhausted cfg.max_attempts (some e) (attempt + 1) delays
        else
          retry_async_go results retryable cfg (attempt + 1) rem
            (delays ++ [calculate_delay attempt cfg.initial_delay cfg.exponential_base cfg.max_delay])
      else .raised e (attempt + 1) delays

/-- Model of `retry_async(func, config=cfg)` where the `i`-th invocation of `func`
behaves as `results i`. -/
def retry_async (results : Nat → Except ε α) (retryable : ε → Bool)
    (cfg : RetryConfig) : RetryOutcome α ε :=
  retry_async_go results retryable cfg 0 cfg.max_attempts []

example :
    retry_async (fun _ => (Except.error () : Except Unit Unit)) (fun _ => true)
      defaultRetryConfig = .exhausted 3 (some ()) 3 [1, 2] := by
  simp [retry_async, retry_async_go, defaultRetryConfig, calculate_delay]

example :
    retry_async (fun _ => (Except.error () : Except Unit Unit)) (fun _ => false)
      defaultRetryConfig = .raised () 1 [] := by
  simp [retry_async, retry_async_go, defaultRetryConfig]

/-! ### Streaming chat orchestrator (`Agents/mainagent.py`,
`LogisticsAgent.chat_streaming`) -/

/-- The two `ErrorCode` members the orchestrator surfaces
(`errors/codes.py`). -/
inductive ErrorCode where
  | CIRCUIT_OPEN
  | AI_SERVICE_UNAVAILABLE
deriving DecidableEq, Repr

/-- The `details` payload of an error event: either the circuit-breaker
details built by `_handle_circuit_breaker_exception` or the raw-message
details built by `_handle_gemini_api_error`. -/
inductive ErrorDetails where
  | circuit (circuit_name : String) (time_until_retry_seconds : Option Int)
  | gemini (error : String)
deriving DecidableEq

/-- One event yielded by `chat_streaming`: a forwarded engine event, a
retry `status` dict, or an `error` dict. The `done` constructor is the
terminal marker of the spec's `StreamEvent` union; the source of
`chat_streaming` never yields such a dict (the HTTP boundary in `main.py`
synthesizes `{'type': 'done'}` from the engine's `messageStop`/`result`
event), and accordingly no definition below constructs it. -/
inductive StreamEvent (γ : Type) where
  | engine (e : γ)
  | status (content : String)
  | errorEvent (content : String) (error_code : ErrorCode) (details : Option ErrorDetails)
  | done
deriving DecidableEq

/-- Whether an orchestrator event is an `error` dict. -/
def isErrorEvent : StreamEvent γ → Bool
  | .errorEvent _ _ _ => true
  | _ => false

/-- Lower-cased character list of a string (`error_msg.lower()`). -/
def lowerChars (s : String) : List Char :=
  s.toList.map Char.toLower

/-- Python's `needle in hay` substring test on character lists. -/
def containsSub (needle hay : List Char) : Bool :=
  (List.range (hay.length + 1)).any fun i => needle.isPrefixOf (hay.drop i)

/-- The transient-error indicators checked in `chat_streaming`
(lines 548-551). -/
def connection_keywords : List String :=
  ["connection closed", "connection error", "timeout", "unavailable",
   "service unavailable", "rate limit", "quota"]

/-- Model of `is_connection_error`: some keyword occurs in the lower-cased error
message. -/
def is_connection_error (msg : String) : Bool :=
  connection_keywords.any fun k => containsSub k.toList (lowerChars msg)

example : is_connection_error "Read timeout on upstream" = true := by decide

example : is_connection_error "bad request" = false := by decide

/-- Observable behaviour of the session store during hydration:
unconfigured / connection failed, `get` raising, `get` finding nothing,
or `get` returning stored session data with a `messages` field. -/
inductive StoreBehavior where
  | unavailable
  | getRaises
  | getAbsent
  | getFound (msgs : List String)
deriving DecidableEq

/-- Model of `LogisticsAgent._load_conversation_history` (lines 235-265): `None`
when the store is unavailable; the `except` clause logs a warning and
returns `None` when `get` raises; `None` when no session is found; the
stored messages otherwise. -/
def load_conversation_history (store : StoreBehavior) : Option (List String) :=
  match store with
  | .unavailable => none
  | .getRaises => none
  | .getAbsent => none
  | .getFound msgs => some msgs

/-- Behaviour of one invocation of `agent.stream_async`: the engine
events it yields, then either a clean end (`failure = none`) or an
exception carrying a message; `msgs_after` is `self.agent.messages` when
the attempt finishes. -/
structure Attempt (γ : Type) where
  events : List γ
  failure : Option String
  msgs_after : List String
deriving DecidableEq

/-- Telemetry metrics recorded by `chat_streaming`:
`ai_response_time_ms` with its `success` tag, and
`ai_time_to_first_token_ms`. -/
inductive MetricEvent where
  | response_time (success : Bool)
  | first_token
deriving DecidableEq

/-- Everything observable about one `chat_streaming` request: the yielded
events in order, the breaker state afterwards, how many times the engine
was invoked, the backoff sleeps (seconds), the messages handed to the
session store's `set` (`none` when no save was attempted), the telemetry
metrics recorded, and the conversation history in `self.agent.messages`
when generation starts. -/
structure ChatResult (γ : Type) where
  events : List (StreamEvent γ)
  breaker : CircuitBreaker
  engine_calls : Nat
  sleeps : List Nat
  persisted : Option (List String)
  metrics : List MetricEvent
  history : List String
deriving DecidableEq

/-- Intermediate output of the attempt loop (everything in `ChatResult`
except the hydrated history). -/
structure LoopOut (γ : Type) where
  events : List (StreamEvent γ)
  breaker : CircuitBreaker
  engine_calls : Nat
  sleeps : List Nat
  persisted : Option (List String)
  metrics : List MetricEvent
deriving DecidableEq

/-- The constant `max_retries = 3` of `chat_streaming`. -/
def max_retries : Nat := 3

/-- Model of `LogisticsAgent._handle_circuit_breaker_exception`: an `error` dict
with code `CIRCUIT_OPEN` and circuit details. -/
def handle_circuit_breaker_exception (circuit_name : String)
    (time_until_retry : Option Int) : StreamEvent γ :=
  let content :=
    match time_until_retry with
    | some t =>
      "❌ AI service temporarily unavailable. Circuit breaker \x27" ++ circuit_name ++
        "\x27 is open. Please retry in " ++ toString t ++ " seconds."
    | none =>
      "❌ AI service temporarily unavailable. Circuit breaker \x27" ++ circuit_name ++
        "\x27 is open."
  .errorEvent content .CIRCUIT_OPEN (some (.circuit circuit_name time_until_retry))

/-- Model of `LogisticsAgent._handle_gemini_api_error`: an `error` dict with code
`AI_SERVICE_UNAVAILABLE` whose details carry the raw error message. -/
def handle_gemini_api_error (msg : String) : StreamEvent γ :=
  .errorEvent ("❌ AI service error: " ++ msg) .AI_SERVICE_UNAVAILABLE
    (some (.gemini msg))

/-- The `status` dict yielded before a retry (line 570). -/
def retry_status_event (retry_count : Nat) : StreamEvent γ :=
  .status ("🔄 Connection interrupted, retrying... (attempt " ++ toString retry_count ++
    "/" ++ toString max_retries ++ ")")

/-- The terminal `error` dict yielded when the attempt loop exhausts its
retries (lines 591-595); it carries no `details` field. -/
def retries_exhausted_event : StreamEvent γ :=
  .errorEvent ("❌ Connection failed after " ++ toString max_retries ++
      " attempts. The AI service is having connectivity issues. Please try again in a moment.")
    .AI_SERVICE_UNAVAILABLE none

/-- The `while retry_count < max_retries` loop of `chat_streaming`
(lines 484-613). `attempts ci` is the behaviour of the `ci`-th invocation
of `agent.stream_async`; `rc` is `retry_count`; the fuel argument counts
the remaining loop iterations (`max_retries - rc` at every reachable call
site). Success with no events skips the breaker/telemetry/persist
bookkeeping (`got_response` is false); a transient failure records a
breaker failure and either surfaces `CIRCUIT_OPEN` (breaker now open),
retries after a `status` event and a linear `1 * retry_count` sleep, or
exhausts; a non-transient failure records a breaker failure and surfaces
the raw message. -/
def stream_loop (attempts : Nat → Attempt γ) (now : Int) (telemetry : Bool)
    (session_id : Option String) : Nat → Nat → Nat → CircuitBreaker → LoopOut γ
  | _rc, 0, _ci, b => ⟨[], b, 0, [], none, []⟩
  | rc, rem + 1, ci, b =>
    let att := attempts ci
    let fwd : List (StreamEvent γ) := att.events.map .engine
    match att.failure with
    | none =>
      if att.events.isEmpty then
        ⟨fwd, b, 1, [], none, []⟩
      else
        ⟨fwd, b.on_success, 1, [],
          if session_id.isSome then some att.msgs_after else none,
          if telemetry then [.response_time true, .first_token] else []⟩
    | some msg =>
      let rc1 := rc + 1
      if is_connection_error msg then
        let b1 := b.on_failure now
        if b1.state = .opened then
          ⟨fwd ++ [handle_circuit_breaker_exception b1.name (b1.get_time_until_retry now)],
            b1, 1, [], none, []⟩
        else if rc1 < max_retries then
          let rest := stream_loop attempts now telemetry session_id rc1 rem (ci + 1) b1
          ⟨fwd ++ retry_status_event rc1 :: rest.events, rest.breaker,
            1 + rest.engine_calls, 1 * rc1 :: rest.sleeps, rest.persisted, rest.metrics⟩
        else
          ⟨fwd ++ [retries_exhausted_event], b1, 1, [], none,
            if telemetry then [.response_time false] else []⟩
      else
        let b1 := b.on_failure now
        ⟨fwd ++ [handle_gemini_api_error msg], b1, 1, [], none,
          if telemetry then [.response_time false] else []⟩

/-- Model of `LogisticsAgent.chat_streaming`: best-effort hydration of the
conversation history (an empty stored list is falsy in Python and is not
restored), the pre-flight circuit-breaker guard (lines 471-482), then the
attempt loop. `mem_messages` is `self.agent.messages` before the request;
`b` is the shared `gemini_api` breaker. -/
def chat_streaming (b : CircuitBreaker) (now : Int) (session_id : Option String)
    (store : StoreBehavior) (mem_messages : List String)
    (attempts : Nat → Attempt γ) (telemetry : Bool) : ChatResult γ :=
  let history :=
    match session_id with
    | none => mem_messages
    | some _ =>
      match load_conversation_history store with
      | some stored => if stored.isEmpty then mem_messages else stored
      | none => mem_messages
  if b.state = .opened ∧ b.should_attempt_reset now = false then
    ⟨[handle_circuit_breaker_exception b.name (b.get_time_until_retry now)],
      b, 0, [], none, [], history⟩
  else
    let out := stream_loop attempts now telemetry session_id 0 max_retries 0 b
    ⟨out.events, out.breaker, out.engine_calls, out.sleeps, out.persisted,
      out.metrics, history⟩

example :
    (chat_streaming (mkBreaker "gemini_api" defaultCircuitConfig) 0 (some "s")
      StoreBehavior.getAbsent []
      (fun i => if i = 0 then ⟨[], some "timeout", []⟩
        else if i = 1 then ⟨[], some "timeout", []⟩
        else ⟨["hello"], none, ["m"]⟩) true).events
    = [retry_status_event 1, retry_status_event 2, .engine "hello"] := by
  decide

example :
    (chat_streaming (mkBreaker "gemini_api" defaultCircuitConfig) 0 (some "s")
      StoreBehavior.getAbsent []
      (fun i => if i = 0 then ⟨[], some "timeout", []⟩
        else if i = 1 then ⟨[], some "timeout", []⟩
        else ⟨["hello"], none, ["m"]⟩) true).sleeps = [1, 2] := by
  decide

/-! ### Helper lemmas about the circuit breaker -/

/-- A failing `execute` against a CLOSED breaker is admitted and lands in
`_on_failure`. -/
lemma execute_closed_fail (b : CircuitBreaker) (t : Int) (h : b.state = .closed) :
    (CircuitBreaker.execute b t (Except.error () : Except Unit Unit)).breaker =
      b.on_failure t := by
  simp [CircuitBreaker.execute, CircuitBreaker.try_acquire, CircuitBreaker.try_acquire_half_open, h]

/-- Applying `_on_failure` to a CLOSED breaker increments the failure count. -/
lemma on_failure_count_closed (b : CircuitBreaker) (t : Int) (h : b.state = .closed) :
    (b.on_failure t).failure_count = b.failure_count + 1 := by
  obtain ⟨nm, ⟨ft, rt, hoc⟩, st, fc, lt, hc⟩ := b
  simp only [CircuitBreaker.state] at h
  subst h
  simp [CircuitBreaker.on_failure]
  split <;> simp

/-- Applying `_on_failure` to a CLOSED breaker at the threshold opens the circuit
and stamps the failure time. -/
lemma on_failure_closed_proj (b : CircuitBreaker) (t : Int) (h : b.state = .closed)
    (hth : b.config.failure_threshold ≤ b.failure_count + 1) :
    (b.on_failure t).state = .opened ∧
    (b.on_failure t).failure_count = b.failure_count + 1 ∧
    (b.on_failure t).last_failure_time = some t := by
  obtain ⟨nm, ⟨ft, rt, hoc⟩, st, fc, lt, hc⟩ := b
  simp only [CircuitBreaker.state] at h
  subst h
  simp only [CircuitBreaker.config, CircuitBreaker.failure_count] at hth
  simp [CircuitBreaker.on_failure, hth]

/-- While the failure count stays strictly below the threshold, a run of
consecutive failing `execute` calls keeps the breaker CLOSED and adds one
failure per call. -/
lemma failRun_closed (ts : List Int) :
    ∀ (nm : String) (ft : Nat) (rt : Int) (hoc : Nat) (fc : Nat) (lt : Option Int) (hc : Nat),
    fc + ts.length < ft →
    (failRun ⟨nm, ⟨ft, rt, hoc⟩, .closed, fc, lt, hc⟩ ts).state = .closed ∧
    (failRun ⟨nm, ⟨ft, rt, hoc⟩, .closed, fc, lt, hc⟩ ts).failure_count = fc + ts.length ∧
    (failRun ⟨nm, ⟨ft, rt, hoc⟩, .closed, fc, lt, hc⟩ ts).config = ⟨ft, rt, hoc⟩ := by
  induction ts with
  | nil => intro nm ft rt hoc fc lt hc _; simp [failRun]
  | cons t ts ih =>
    intro nm ft rt hoc fc lt hc h
    simp only [List.length_cons] at h
    have hnotyet : ¬ ft ≤ fc + 1 := by omega
    have hstep : failRun ⟨nm, ⟨ft, rt, hoc⟩, .closed, fc, lt, hc⟩ (t :: ts) =
        failRun ⟨nm, ⟨ft, rt, hoc⟩, .closed, fc + 1, some t, hc⟩ ts := by
      simp only [failRun, List.foldl_cons]
      congr 1
      rw [execute_closed_fail _ _ rfl]
      simp [CircuitBreaker.on_failure, hnotyet]
    rw [hstep]
    have hres := ih nm ft rt hoc (fc + 1) (some t) hc (by omega)
    refine ⟨hres.1, ?_, hres.2.2⟩
    rw [hres.2.1]
    simp only [List.length_cons]
    omega

/-- Splitting a failure run at its last call. -/
lemma failRun_append_single (b : CircuitBreaker) (ts : List Int) (t : Int) :
    failRun b (ts ++ [t]) =
      (CircuitBreaker.execute (failRun b ts) t (Except.error () : Except Unit Unit)).breaker := by
  simp [failRun, List.foldl_append]

/-! ### C1 -/

/-- C1: starting from a fresh CLOSED breaker, any `n < failure_threshold`
consecutive failing `execute` calls leave the breaker CLOSED with
`failure_count = n`; the call that brings the count to exactly
`failure_threshold` opens the circuit and stamps `last_failure_time` with
that call's time. -/
theorem claim_C1 (name : String) (cfg : CircuitBreakerConfig) (ts : List Int) (t : Int) :
    (ts.length < cfg.failure_threshold →
      (failRun (mkBreaker name cfg) ts).state = .closed ∧
      (failRun (mkBreaker name cfg) ts).failure_count = ts.length) ∧
    (ts.length + 1 = cfg.failure_threshold →
      (failRun (mkBreaker name cfg) (ts ++ [t])).state = .opened ∧
      (failRun (mkBreaker name cfg) (ts ++ [t])).failure_count = cfg.failure_threshold ∧
      (failRun (mkBreaker name cfg) (ts ++ [t])).last_failure_time = some t) := by
  obtain ⟨ft, rt, hoc⟩ := cfg
  simp only [mkBreaker]
  constructor
  · intro hlt
    have h := failRun_closed ts name ft rt hoc 0 none 0 (by omega)
    exact ⟨h.1, by rw [h.2.1]; omega⟩
  · intro heq
    have h := failRun_closed ts name ft rt hoc 0 none 0 (by omega)
    rw [failRun_append_single]
    rw [execute_closed_fail _ _ h.1]
    have hth : (failRun (⟨name, ⟨ft, rt, hoc⟩, .closed, 0, none, 0⟩ : CircuitBreaker)
        ts).config.failure_threshold ≤
        (failRun (⟨name, ⟨ft, rt, hoc⟩, .closed, 0, none, 0⟩ : CircuitBreaker)
        ts).failure_count + 1 := by
      rw [h.2.2]
      show ft ≤ _
      rw [h.2.1]
      omega
    have hof := on_failure_closed_proj _ t h.1 hth
    refine ⟨hof.1, ?_, hof.2.2⟩
    rw [hof.2.1, h.2.1]
    show 0 + ts.length + 1 = ft
    omega

/-- Witness for C1 at `failure_threshold = 3`, failures at times 0, 1, 2. -/
theorem claim_C1_witness :
    ((failRun (mkBreaker "gemini_api" defaultCircuitConfig) [0, 1]).state = .closed ∧
      (failRun (mkBreaker "gemini_api" defaultCircuitConfig) [0, 1]).failure_count = 2) ∧
    ((failRun (mkBreaker "gemini_api" defaultCircuitConfig) [0, 1, 2]).state = .opened ∧
      (failRun (mkBreaker "gemini_api" defaultCircuitConfig) [0, 1, 2]).failure_count = 3 ∧
      (failRun (mkBreaker "gemini_api" defaultCircuitConfig) [0, 1, 2]).last_failure_time =
        some 2) := by
  have h := claim_C1 "gemini_api" defaultCircuitConfig [0, 1] 2
  exact ⟨⟨(h.1 (by decide)).1, by simpa using (h.1 (by decide)).2⟩,
    (h.2 (by decide)).1, by simpa using (h.2 (by decide)).2.1, (h.2 (by decide)).2.2⟩

/-! ### C2 -/

/-- C2: while the breaker is OPEN and less than `recovery_timeout` has
elapsed since `last_failure_time`, `execute` rejects the call with a
`CircuitOpenException` carrying the dependency name and the remaining
cooldown, the wrapped operation is not invoked, and the breaker state is
unchanged. -/
theorem claim_C2 {α ε : Type} (b : CircuitBreaker) (t now : Int) (op : Except ε α)
    (hs : b.state = .opened) (hl : b.last_failure_time = some t)
    (hlt : now - t < b.config.recovery_timeout) :
    CircuitBreaker.execute b now op =
      ⟨.rejected b.name (some (b.config.recovery_timeout - (now - t))), false, b⟩ := by
  have h1 : b.should_attempt_reset now = false := by
    simp [CircuitBreaker.should_attempt_reset, hl]
    omega
  have h2 : b.get_time_until_retry now =
      some (b.config.recovery_timeout - (now - t)) := by
    simp only [CircuitBreaker.get_time_until_retry, hl]
    rw [if_neg (by omega)]
  simp [CircuitBreaker.execute, CircuitBreaker.try_acquire, hs, h1, h2]

/-- Witness for C2: Scenario A. With `failure_threshold = 3`, three
failing calls (at time 0) open the circuit; a fourth call at time 10 is
rejected with the circuit name and 20 seconds of remaining cooldown,
without the operation being invoked. -/
theorem claim_C2_witness :
    (CircuitBreaker.execute (failRun (mkBreaker "gemini_api" defaultCircuitConfig) [0, 0, 0])
        10 (Except.error () : Except Unit Unit)).outcome =
      .rejected "gemini_api" (some 20) ∧
    (CircuitBreaker.execute (failRun (mkBreaker "gemini_api" defaultCircuitConfig) [0, 0, 0])
        10 (Except.error () : Except Unit Unit)).invoked = false := by
  have h := claim_C2 (failRun (mkBreaker "gemini_api" defaultCircuitConfig) [0, 0, 0])
    0 10 (Except.error () : Except Unit Unit) (by decide) (by decide) (by decide)
  rw [h]
  exact ⟨by decide, rfl⟩

/-! ### C3 -/

/-- C3: with `half_open_max_calls = 1`, once the recovery timeout has
elapsed an OPEN breaker admits the next call as the single HALF_OPEN
trial (`half_open_calls` becomes 1); a further call entering while that
trial is in flight is rejected with a `CircuitOpenException` and changes
nothing; a successful trial closes the circuit and resets the failure
count to 0; a failed trial reopens the circuit and stamps
`last_failure_time` with the failure time, restarting the recovery
window. -/
theorem claim_C3 (b : CircuitBreaker) (t now now2 now3 : Int)
    (hmax : b.config.half_open_max_calls = 1) (hs : b.state = .opened)
    (hl : b.last_failure_time = some t)
    (helapsed : b.config.recovery_timeout ≤ now - t) :
    CircuitBreaker.try_acquire b now =
      (.admitted, { b with state := .halfOpen, half_open_calls := 1 }) ∧
    CircuitBreaker.try_acquire { b with state := .halfOpen, half_open_calls := 1 } now2 =
      (.rejected
        (CircuitBreaker.get_time_until_retry
          { b with state := .halfOpen, half_open_calls := 1 } now2),
        { b with state := .halfOpen, half_open_calls := 1 }) ∧
    CircuitBreaker.on_success { b with state := .halfOpen, half_open_calls := 1 } =
      { b with state := .closed, failure_count := 0, half_open_calls := 0 } ∧
    CircuitBreaker.on_failure { b with state := .halfOpen, half_open_calls := 1 } now3 =
      { b with state := .opened, half_open_calls := 0, last_failure_time := some now3 } := by
  obtain ⟨nm, ⟨ft, rt, hoc⟩, st, fc, lt, hc⟩ := b
  simp only [CircuitBreaker.state] at hs
  simp only [CircuitBreaker.config, CircuitBreakerConfig.half_open_max_calls] at hmax
  subst hs
  subst hmax
  have hreset : CircuitBreaker.should_attempt_reset
      ⟨nm, ⟨ft, rt, 1⟩, .opened, fc, lt, hc⟩ now = true := by
    simp only [CircuitBreaker.last_failure_time] at hl
    simp [CircuitBreaker.should_attempt_reset, hl]
    simp only [CircuitBreaker.config, CircuitBreakerConfig.recovery_timeout] at helapsed
    omega
  refine ⟨?_, ?_, ?_, ?_⟩
  · simp [CircuitBreaker.try_acquire, CircuitBreaker.try_acquire_half_open, hreset]
  · simp [CircuitBreaker.try_acquire, CircuitBreaker.try_acquire_half_open]
  · simp [CircuitBreaker.on_success]
  · simp [CircuitBreaker.on_failure]

/-- Witness for C3: a breaker opened at time 0 with 30s recovery timeout,
probed at time 30 (trial admitted), with a concurrent call at time 31
rejected; success closes it, failure at time 40 reopens it. -/
theorem claim_C3_witness :
    CircuitBreaker.try_acquire ⟨"gemini_api", ⟨3, 30, 1⟩, .opened, 3, some 0, 0⟩ 30 =
      (.admitted, ⟨"gemini_api", ⟨3, 30, 1⟩, .halfOpen, 3, some 0, 1⟩) ∧
    CircuitBreaker.try_acquire ⟨"gemini_api", ⟨3, 30, 1⟩, .halfOpen, 3, some 0, 1⟩ 31 =
      (.rejected none, ⟨"gemini_api", ⟨3, 30, 1⟩, .halfOpen, 3, some 0, 1⟩) ∧
    CircuitBreaker.on_success ⟨"gemini_api", ⟨3, 30, 1⟩, .halfOpen, 3, some 0, 1⟩ =
      ⟨"gemini_api", ⟨3, 30, 1⟩, .closed, 0, some 0, 0⟩ ∧
    CircuitBreaker.on_failure ⟨"gemini_api", ⟨3, 30, 1⟩, .halfOpen, 3, some 0, 1⟩ 40 =
      ⟨"gemini_api", ⟨3, 30, 1⟩, .opened, 3, some 40, 0⟩ := by
  have h := claim_C3 ⟨"gemini_api", ⟨3, 30, 1⟩, .opened, 3, some 0, 0⟩ 0 30 31 40
    rfl rfl rfl (by decide)
  refine ⟨h.1, ?_, h.2.2.1, h.2.2.2⟩
  have h2 := h.2.1
  rw [show CircuitBreaker.get_time_until_retry
    (⟨"gemini_api", ⟨3, 30, 1⟩, .halfOpen, 3, some 0, 1⟩ : CircuitBreaker) 31 =
      none from by decide] at h2
  exact h2

/-! ### C8 -/

/-- C8: `calculate_delay` is `initial_delay * exponential_base ^ attempt`
with no cap when `max_delay` is absent and capped with `min` when it is
present; with `initial_delay=1.0`, `exponential_base=2.0` the delays for
attempts 0, 1, 2 are 1.0, 2.0, 4.0 seconds, and with `max_delay=3.0` the
delay for attempt 2 is 3.0. -/
theorem claim_C8 (attempt : Nat) (init base m : ℚ) :
    calculate_delay attempt init base none = init * base ^ attempt ∧
    calculate_delay attempt init base (some m) = min (init * base ^ attempt) m ∧
    calculate_delay 0 1 2 none = 1 ∧
    calculate_delay 1 1 2 none = 2 ∧
    calculate_delay 2 1 2 none = 4 ∧
    calculate_delay 2 1 2 (some 3) = 3 := by
  refine ⟨rfl, rfl, ?_, ?_, ?_, ?_⟩ <;> norm_num [calculate_delay]

/-! ### C7 -/

/-- C7: `retry_async` (the `@retry` decorator runs the identical loop)
with `max_attempts = 3` against an operation that fails on every call
with a retryable error invokes the operation exactly 3 times, sleeps the
backoff delays 1s and 2s, and raises `RetryExhaustedException` with
`attempts = 3` wrapping the last error; against an operation whose first
call fails with a non-retryable error it invokes the operation exactly
once and the error propagates immediately with no backoff sleeps. -/
theorem claim_C7 {α ε : Type} (es : Nat → ε) (retryable retryable2 : ε → Bool)
    (e0 : ε) (results2 : Nat → Except ε α)
    (hall : ∀ i, retryable (es i) = true)
    (h0 : results2 0 = .error e0) (hnr : retryable2 e0 = false) :
    retry_async (fun i => (Except.error (es i) : Except ε α)) retryable
      defaultRetryConfig = .exhausted 3 (some (es 2)) 3 [1, 2] ∧
    retry_async results2 retryable2 defaultRetryConfig = .raised e0 1 [] := by
  constructor
  · simp [retry_async, retry_async_go, defaultRetryConfig, hall 0, hall 1, hall 2,
      calculate_delay]
  · simp [retry_async, retry_async_go, defaultRetryConfig, h0, hnr]

/-- Witness for C7 with a concrete always-failing retryable operation and
a concrete non-retryable one. -/
theorem claim_C7_witness :
    retry_async (fun _ => (Except.error () : Except Unit Unit)) (fun _ => true)
      defaultRetryConfig = .exhausted 3 (some ()) 3 [1, 2] ∧
    retry_async (fun _ => (Except.error () : Except Unit Unit)) (fun _ => false)
      defaultRetryConfig = .raised () 1 [] :=
  claim_C7 (fun _ => ()) (fun _ => true) (fun _ => false) ()
    (fun _ => (Except.error () : Except Unit Unit)) (fun _ => rfl) rfl rfl

/-! ### C4 -/

/-- C4: with `max_retries = 3` and a fresh CLOSED breaker, when the first
two engine invocations fail with transient (message-matched) errors and
the third succeeds with at least one event, `chat_streaming` yields
exactly two `status` events numbered attempt 1/3 and 2/3, sleeps the
linear delays 1s then 2s (`1 * retry_count`, not exponential), forwards
the successful attempt's events in order after them, invokes the engine
exactly 3 times, and persists the full session. -/
theorem claim_C4 {γ : Type} (b : CircuitBreaker) (now : Int) (sid : String)
    (store : StoreBehavior) (mem : List String) (m0 m1 : String)
    (evs : List γ) (msgs0 msgs1 msgsS : List String) (tel : Bool)
    (attempts : Nat → Attempt γ)
    (h0 : attempts 0 = ⟨[], some m0, msgs0⟩)
    (h1 : attempts 1 = ⟨[], some m1, msgs1⟩)
    (h2 : attempts 2 = ⟨evs, none, msgsS⟩)
    (hm0 : is_connection_error m0 = true) (hm1 : is_connection_error m1 = true)
    (hs : b.state = .closed) (hfc : b.failure_count = 0)
    (hth : b.config.failure_threshold = 3) (hevs : evs ≠ []) :
    ((chat_streaming b now (some sid) store mem attempts tel).events,
     (chat_streaming b now (some sid) store mem attempts tel).sleeps,
     (chat_streaming b now (some sid) store mem attempts tel).engine_calls,
     (chat_streaming b now (some sid) store mem attempts tel).persisted) =
    (retry_status_event 1 :: retry_status_event 2 :: evs.map StreamEvent.engine,
     [1, 2], 3, some msgsS) := by
  obtain ⟨nm, ⟨ft, rt, hoc⟩, st, fc, lt, hc⟩ := b
  simp only [CircuitBreaker.state] at hs
  simp only [CircuitBreaker.failure_count] at hfc
  simp only [CircuitBreaker.config, CircuitBreakerConfig.failure_threshold] at hth
  subst hs; subst hfc; subst hth
  have hev : evs.isEmpty = false := by
    cases evs
    · exact absurd rfl hevs
    · rfl
  simp [chat_streaming, stream_loop, max_retries, h0, h1, h2, hm0, hm1, hev,
    CircuitBreaker.on_failure, CircuitBreaker.on_success]

/-- Witness for C4: transient "timeout" failures, then a one-event
success. -/
theorem claim_C4_witness :
    ((chat_streaming (mkBreaker "gemini_api" defaultCircuitConfig) 0 (some "s")
        StoreBehavior.getAbsent []
        (fun i => if i = 0 then ⟨[], some "timeout", []⟩
          else if i = 1 then ⟨[], some "timeout", []⟩
          else ⟨["hello"], none, ["m"]⟩) true).events,
     (chat_streaming (mkBreaker "gemini_api" defaultCircuitConfig) 0 (some "s")
        StoreBehavior.getAbsent []
        (fun i => if i = 0 then ⟨[], some "timeout", []⟩
          else if i = 1 then ⟨[], some "timeout", []⟩
          else ⟨["hello"], none, ["m"]⟩) true).sleeps,
     (chat_streaming (mkBreaker "gemini_api" defaultCircuitConfig) 0 (some "s")
        StoreBehavior.getAbsent []
        (fun i => if i = 0 then ⟨[], some "timeout", []⟩
          else if i = 1 then ⟨[], some "timeout", []⟩
          else ⟨["hello"], none, ["m"]⟩) true).engine_calls,
     (chat_streaming (mkBreaker "gemini_api" defaultCircuitConfig) 0 (some "s")
        StoreBehavior.getAbsent []
        (fun i => if i = 0 then ⟨[], some "timeout", []⟩
          else if i = 1 then ⟨[], some "timeout", []⟩
          else ⟨["hello"], none, ["m"]⟩) true).persisted) =
    (retry_status_event 1 :: retry_status_event 2 :: [StreamEvent.engine "hello"],
     [1, 2], 3, some ["m"]) := by
  have h := claim_C4 (mkBreaker "gemini_api" defaultCircuitConfig) 0 "s"
    StoreBehavior.getAbsent [] "timeout" "timeout" ["hello"] [] [] ["m"] true
    (fun i => if i = 0 then ⟨[], some "timeout", []⟩
      else if i = 1 then ⟨[], some "timeout", []⟩
      else ⟨["hello"], none, ["m"]⟩)
    rfl rfl rfl (by decide) (by decide) rfl rfl rfl (by decide)
  exact h

/-! ### C5 -/

/-- C5: when an engine invocation fails with a non-transient error (its
message matches none of the transient indicators) and the breaker is
CLOSED, `chat_streaming` yields the events forwarded so far followed by
exactly one terminal `error` event with code `AI_SERVICE_UNAVAILABLE`
whose details carry the raw error message, invokes the engine exactly
once, performs zero retry sleeps, and increments the breaker's failure
count by exactly 1. -/
theorem claim_C5 {γ : Type} (b : CircuitBreaker) (now : Int) (sid : Option String)
    (store : StoreBehavior) (mem : List String) (msg : String)
    (evs : List γ) (msgs : List String) (tel : Bool)
    (attempts : Nat → Attempt γ)
    (h0 : attempts 0 = ⟨evs, some msg, msgs⟩)
    (hnc : is_connection_error msg = false)
    (hs : b.state = .closed) :
    ((chat_streaming b now sid store mem attempts tel).events,
     (chat_streaming b now sid store mem attempts tel).engine_calls,
     (chat_streaming b now sid store mem attempts tel).sleeps,
     (chat_streaming b now sid store mem attempts tel).breaker.failure_count) =
    (evs.map StreamEvent.engine ++
      [StreamEvent.errorEvent ("❌ AI service error: " ++ msg) .AI_SERVICE_UNAVAILABLE
        (some (.gemini msg))],
     1, [], b.failure_count + 1) := by
  obtain ⟨nm, ⟨ft, rt, hoc⟩, st, fc, lt, hc⟩ := b
  simp only [CircuitBreaker.state] at hs
  subst hs
  simp [chat_streaming, stream_loop, max_retries, h0, hnc, handle_gemini_api_error,
    CircuitBreaker.on_failure, apply_ite CircuitBreaker.failure_count]

/-- Witness for C5: a "bad request" failure against a fresh breaker. -/
theorem claim_C5_witness :
    ((chat_streaming (mkBreaker "gemini_api" defaultCircuitConfig) 0 (some "s")
        StoreBehavior.getAbsent [] (fun _ => ⟨["frag"], some "bad request", ["m"]⟩)
        true).events,
     (chat_streaming (mkBreaker "gemini_api" defaultCircuitConfig) 0 (some "s")
        StoreBehavior.getAbsent [] (fun _ => ⟨["frag"], some "bad request", ["m"]⟩)
        true).engine_calls,
     (chat_streaming (mkBreaker "gemini_api" defaultCircuitConfig) 0 (some "s")
        StoreBehavior.getAbsent [] (fun _ => ⟨["frag"], some "bad request", ["m"]⟩)
        true).sleeps,
     (chat_streaming (mkBreaker "gemini_api" defaultCircuitConfig) 0 (some "s")
        StoreBehavior.getAbsent [] (fun _ => ⟨["frag"], some "bad request", ["m"]⟩)
        true).breaker.failure_count) =
    ([StreamEvent.engine "frag",
      StreamEvent.errorEvent ("❌ AI service error: " ++ "bad request")
        .AI_SERVICE_UNAVAILABLE (some (.gemini "bad request"))],
     1, [], 1) := by
  have h := claim_C5 (mkBreaker "gemini_api" defaultCircuitConfig) 0 (some "s")
    StoreBehavior.getAbsent [] "bad request" ["frag"] ["m"] true
    (fun _ => ⟨["frag"], some "bad request", ["m"]⟩) rfl (by decide) rfl
  exact h

/-! ### C9 -/

/-- C9: a session store whose `get` raises during hydration is swallowed
(`_load_conversation_history` returns `None` after logging a warning),
the request proceeds with the in-memory history, and the whole observable
outcome of `chat_streaming` is identical to a run where the store simply
has no stored session — no error is surfaced on account of the store
failure. -/
theorem claim_C9 {γ : Type} (b : CircuitBreaker) (now : Int) (sid : String)
    (mem : List String) (attempts : Nat → Attempt γ) (tel : Bool) :
    load_conversation_history .getRaises = none ∧
    chat_streaming b now (some sid) .getRaises mem attempts tel =
      chat_streaming b now (some sid) .getAbsent mem attempts tel ∧
    (chat_streaming b now (some sid) .getRaises mem attempts tel).history = mem := by
  refine ⟨rfl, rfl, ?_⟩
  simp only [chat_streaming, load_conversation_history]
  split <;> rfl

/-! ### C10 -/

/-- C10: when the engine stream ends cleanly having yielded zero events
(`got_response` stays false), `chat_streaming` reports nothing to the
circuit breaker (its state is returned unchanged), records no telemetry
metric, persists nothing to the session store, and yields no events,
after exactly one engine invocation. -/
theorem claim_C10 {γ : Type} (b : CircuitBreaker) (now : Int) (sid : Option String)
    (store : StoreBehavior) (mem : List String) (msgs : List String) (tel : Bool)
    (attempts : Nat → Attempt γ)
    (h0 : attempts 0 = ⟨[], none, msgs⟩) (hs : b.state = .closed) :
    ((chat_streaming b now sid store mem attempts tel).events,
     (chat_streaming b now sid store mem attempts tel).breaker,
     (chat_streaming b now sid store mem attempts tel).metrics,
     (chat_streaming b now sid store mem attempts tel).persisted,
     (chat_streaming b now sid store mem attempts tel).engine_calls) =
    ([], b, [], none, 1) := by
  obtain ⟨nm, ⟨ft, rt, hoc⟩, st, fc, lt, hc⟩ := b
  simp only [CircuitBreaker.state] at hs
  subst hs
  simp [chat_streaming, stream_loop, max_retries, h0]

/-- Witness for C10: a clean zero-event stream against a fresh breaker
with a configured session and telemetry present. -/
theorem claim_C10_witness :
    ((chat_streaming (mkBreaker "gemini_api" defaultCircuitConfig) 0 (some "s")
        StoreBehavior.getAbsent [] (fun _ => (⟨[], none, ["m"]⟩ : Attempt Nat))
        true).events,
     (chat_streaming (mkBreaker "gemini_api" defaultCircuitConfig) 0 (some "s")
        StoreBehavior.getAbsent [] (fun _ => (⟨[], none, ["m"]⟩ : Attempt Nat))
        true).breaker,
     (chat_streaming (mkBreaker "gemini_api" defaultCircuitConfig) 0 (some "s")
        StoreBehavior.getAbsent [] (fun _ => (⟨[], none, ["m"]⟩ : Attempt Nat))
        true).metrics,
     (chat_streaming (mkBreaker "gemini_api" defaultCircuitConfig) 0 (some "s")
        StoreBehavior.getAbsent [] (fun _ => (⟨[], none, ["m"]⟩ : Attempt Nat))
        true).persisted,
     (chat_streaming (mkBreaker "gemini_api" defaultCircuitConfig) 0 (some "s")
        StoreBehavior.getAbsent [] (fun _ => (⟨[], none, ["m"]⟩ : Attempt Nat))
        true).engine_calls) =
    ([], mkBreaker "gemini_api" defaultCircuitConfig, [], none, 1) := by
  have h := claim_C10 (mkBreaker "gemini_api" defaultCircuitConfig) 0 (some "s")
    StoreBehavior.getAbsent [] ["m"] true
    (fun _ => (⟨[], none, ["m"]⟩ : Attempt Nat)) rfl rfl
  exact h

/-! ### C6 -/

/-- Forwarded engine events are never the `done` marker. -/
lemma mem_map_engine_ne_done {γ : Type} (evs : List γ) :
    ∀ e ∈ evs.map StreamEvent.engine, e ≠ StreamEvent.done := by
  intro e he
  simp only [List.mem_map] at he
  obtain ⟨a, -, rfl⟩ := he
  simp

/-- Forwarded engine events are never `error` dicts. -/
lemma mem_map_engine_not_error {γ : Type} (evs : List γ) :
    ∀ e ∈ evs.map StreamEvent.engine, isErrorEvent e = false := by
  intro e he
  simp only [List.mem_map] at he
  obtain ⟨a, -, rfl⟩ := he
  rfl

/-- Shape of the attempt loop's event output: never a `done` marker, and
either no `error` dict at all or exactly one, in final position; when
every engine invocation fails (and the loop is entered with its fuel
aligned to `retry_count`, as `chat_streaming` enters it) the output ends
in exactly one `error` dict. -/
lemma stream_loop_terminal {γ : Type} (attempts : Nat → Attempt γ) (now : Int)
    (tel : Bool) (sid : Option String) :
    ∀ (rem rc ci : Nat) (b : CircuitBreaker),
    (∀ e ∈ (stream_loop attempts now tel sid rc rem ci b).events,
      e ≠ StreamEvent.done) ∧
    ∃ pre, (∀ e ∈ pre, isErrorEvent e = false) ∧
      ((stream_loop attempts now tel sid rc rem ci b).events = pre ∨
        ∃ c code d, (stream_loop attempts now tel sid rc rem ci b).events =
          pre ++ [StreamEvent.errorEvent c code d]) ∧
      ((∀ k, (attempts k).failure.isSome) → rc + rem = max_retries → 1 ≤ rem →
        ∃ c code d, (stream_loop attempts now tel sid rc rem ci b).events =
          pre ++ [StreamEvent.errorEvent c code d]) := by
  intro rem
  induction rem with
  | zero =>
    intro rc ci b
    refine ⟨by simp [stream_loop], [], by simp, Or.inl (by simp [stream_loop]), ?_⟩
    intro _ _ h
    omega
  | succ rem ih =>
    intro rc ci b
    cases hatt : (attempts ci).failure with
    | none =>
      have hev : (stream_loop attempts now tel sid rc (rem + 1) ci b).events =
          (attempts ci).events.map StreamEvent.engine := by
        simp only [stream_loop, hatt]
        split <;> rfl
      rw [hev]
      refine ⟨mem_map_engine_ne_done _, (attempts ci).events.map StreamEvent.engine,
        mem_map_engine_not_error _, Or.inl rfl, ?_⟩
      intro hall _ _
      have hk := hall ci
      rw [hatt] at hk
      simp at hk
    | some msg =>
      cases hconn : is_connection_error msg with
      | false =>
        have hev : (stream_loop attempts now tel sid rc (rem + 1) ci b).events =
            (attempts ci).events.map StreamEvent.engine ++ [handle_gemini_api_error msg] := by
          simp [stream_loop, hatt, hconn]
        rw [hev]
        refine ⟨?_, (attempts ci).events.map StreamEvent.engine,
          mem_map_engine_not_error _, Or.inr ⟨_, _, _, rfl⟩, fun _ _ _ => ⟨_, _, _, rfl⟩⟩
        intro e he
        rw [List.mem_append] at he
        rcases he with he | he
        · exact mem_map_engine_ne_done _ e he
        · simp only [List.mem_singleton] at he
          subst he
          simp [handle_gemini_api_error]
      | true =>
        by_cases hst : (CircuitBreaker.on_failure b now).state = .opened
        · have hev : (stream_loop attempts now tel sid rc (rem + 1) ci b).events =
              (attempts ci).events.map StreamEvent.engine ++
                [handle_circuit_breaker_exception (CircuitBreaker.on_failure b now).name
                  (CircuitBreaker.get_time_until_retry (CircuitBreaker.on_failure b now) now)] := by
            simp [stream_loop, hatt, hconn, hst]
          rw [hev]
          refine ⟨?_, (attempts ci).events.map StreamEvent.engine,
            mem_map_engine_not_error _, Or.inr ⟨_, _, _, rfl⟩, fun _ _ _ => ⟨_, _, _, rfl⟩⟩
          intro e he
          rw [List.mem_append] at he
          rcases he with he | he
          · exact mem_map_engine_ne_done _ e he
          · simp only [List.mem_singleton] at he
            subst he
            simp [handle_circuit_breaker_exception]
        · by_cases hrc : rc + 1 < max_retries
          · have hev : (stream_loop attempts now tel sid rc (rem + 1) ci b).events =
                (attempts ci).events.map StreamEvent.engine ++
                  retry_status_event (rc + 1) ::
                    (stream_loop attempts now tel sid (rc + 1) rem (ci + 1)
                      (CircuitBreaker.on_failure b now)).events := by
              simp [stream_loop, hatt, hconn, hst, hrc]
            obtain ⟨hdone', pre', hne', hdisj', hall'⟩ :=
              ih (rc + 1) (ci + 1) (CircuitBreaker.on_failure b now)
            rw [hev]
            refine ⟨?_, (attempts ci).events.map StreamEvent.engine ++
              retry_status_event (rc + 1) :: pre', ?_, ?_, ?_⟩
            · intro e he
              rw [List.mem_append] at he
              rcases he with he | he
              · exact mem_map_engine_ne_done _ e he
              · rcases List.mem_cons.mp he with rfl | he
                · simp [retry_status_event]
                · exact hdone' e he
            · intro e he
              rw [List.mem_append] at he
              rcases he with he | he
              · exact mem_map_engine_not_error _ e he
              · rcases List.mem_cons.mp he with rfl | he
                · rfl
                · exact hne' e he
            · rcases hdisj' with h | ⟨c, code, d, h⟩
              · exact Or.inl (by rw [h])
              · exact Or.inr ⟨c, code, d, by rw [h]; simp⟩
            · intro hall halign hrem
              have halign3 : rc + (rem + 1) = 3 := halign
              have hrc3 : rc + 1 < 3 := hrc
              obtain ⟨c, code, d, h⟩ := hall' hall
                (show rc + 1 + rem = 3 by omega) (by omega)
              exact ⟨c, code, d, by rw [h]; simp⟩
          · have hev : (stream_loop attempts now tel sid rc (rem + 1) ci b).events =
                (attempts ci).events.map StreamEvent.engine ++ [retries_exhausted_event] := by
              simp [stream_loop, hatt, hconn, hst, hrc]
            rw [hev]
            refine ⟨?_, (attempts ci).events.map StreamEvent.engine,
              mem_map_engine_not_error _, Or.inr ⟨_, _, _, rfl⟩, fun _ _ _ => ⟨_, _, _, rfl⟩⟩
            intro e he
            rw [List.mem_append] at he
            rcases he with he | he
            · exact mem_map_engine_ne_done _ e he
            · simp only [List.mem_singleton] at he
              subst he
              simp [retries_exhausted_event]

/-- C6 (amended): every event sequence produced by one `chat_streaming`
request contains at most one `error` dict, which if present is the final
event, and contains exactly one `error` dict (in final position) whenever
every engine invocation fails — every failure path ends in exactly one
terminal error. On success, however, `chat_streaming` itself yields no
terminal marker at all: the `done` marker never appears in its output
(the HTTP boundary in `main.py` synthesizes `{'type': 'done'}` from the
engine's own end-of-turn event). -/
theorem claim_C6_amended {γ : Type} (b : CircuitBreaker) (now : Int)
    (sid : Option String) (store : StoreBehavior) (mem : List String)
    (attempts : Nat → Attempt γ) (tel : Bool) :
    (∀ e ∈ (chat_streaming b now sid store mem attempts tel).events,
      e ≠ StreamEvent.done) ∧
    ∃ pre, (∀ e ∈ pre, isErrorEvent e = false) ∧
      ((chat_streaming b now sid store mem attempts tel).events = pre ∨
        ∃ c code d, (chat_streaming b now sid store mem attempts tel).events =
          pre ++ [StreamEvent.errorEvent c code d]) ∧
      ((∀ k, (attempts k).failure.isSome) →
        ∃ c code d, (chat_streaming b now sid store mem attempts tel).events =
          pre ++ [StreamEvent.errorEvent c code d]) := by
  by_cases hguard : b.state = .opened ∧ b.should_attempt_reset now = false
  · have hev : (chat_streaming b now sid store mem attempts tel).events =
        [handle_circuit_breaker_exception b.name (b.get_time_until_retry now)] := by
      simp [chat_streaming, hguard]
    rw [hev]
    refine ⟨?_, [], by simp, Or.inr ⟨_, _, _, rfl⟩, fun _ => ⟨_, _, _, rfl⟩⟩
    intro e he
    simp only [List.mem_singleton] at he
    subst he
    simp [handle_circuit_breaker_exception]
  · have hev : (chat_streaming b now sid store mem attempts tel).events =
        (stream_loop attempts now tel sid 0 max_retries 0 b).events := by
      simp [chat_streaming, hguard]
    obtain ⟨hdone, pre, hne, hdisj, hall⟩ :=
      stream_loop_terminal attempts now tel sid max_retries 0 0 b
    rw [hev]
    exact ⟨hdone, pre, hne, hdisj, fun hf => hall hf rfl (by decide)⟩

/-- Witness for C6 (amended) on a run whose every engine invocation
fails: the event sequence ends in exactly one terminal `error` dict. -/
theorem claim_C6_amended_witness :
    ∃ pre, (∀ e ∈ pre, isErrorEvent e = false) ∧
      ∃ c code d,
        (chat_streaming (mkBreaker "gemini_api" defaultCircuitConfig) 0 (some "s")
          StoreBehavior.getAbsent []
          (fun _ => (⟨[], some "bad request", []⟩ : Attempt Nat)) true).events =
        pre ++ [StreamEvent.errorEvent c code d] := by
  obtain ⟨-, pre, hne, -, hall⟩ :=
    claim_C6_amended (mkBreaker "gemini_api" defaultCircuitConfig) 0 (some "s")
      StoreBehavior.getAbsent [] (fun _ => (⟨[], some "bad request", []⟩ : Attempt Nat)) true
  exact ⟨pre, hne, hall fun _ => rfl⟩

/-- Counterexample to C6 as stated: on a clean one-event success,
`chat_streaming` terminates without yielding any `done` marker — the
terminal `Done` of the spec's event union is not emitted by the
orchestrator. -/
theorem claim_C6_counterexample :
    (chat_streaming (mkBreaker "gemini_api" defaultCircuitConfig) 0 (some "s")
        StoreBehavior.getAbsent [] (fun _ => (⟨[7], none, ["m"]⟩ : Attempt Nat))
        true).events ≠ [] ∧
    (chat_streaming (mkBreaker "gemini_api" defaultCircuitConfig) 0 (some "s")
        StoreBehavior.getAbsent [] (fun _ => (⟨[7], none, ["m"]⟩ : Attempt Nat))
        true).events.getLast? ≠ some StreamEvent.done ∧
    StreamEvent.done ∉
      (chat_streaming (mkBreaker "gemini_api" defaultCircuitConfig) 0 (some "s")
        StoreBehavior.getAbsent [] (fun _ => (⟨[7], none, ["m"]⟩ : Attempt Nat))
        true).events := by
  decide

end Runsheet
